import Mathlib

/-
  Shallow embedding of the CPE Innovation Framework
  (src/src/main.py and src/config/settings.py).

  The framework wires five statically-defined CrewAI agents to five
  statically-defined tasks, composes them into a sequential crew, and
  exposes a run entry point and a status snapshot.  Python dictionaries
  are modelled as insertion-ordered association lists with Python's
  assignment semantics (replace in place if the key exists, append
  otherwise); Python exceptions are modelled with `Except PyError`;
  the external sequential-execution facility (crew.kickoff) is modelled
  as an explicit function parameter from the input payload to either a
  result or a raised exception; wall-clock time (datetime.now) is an
  explicit string parameter.
-/

namespace CPE

/-- The langchain ChatOpenAI client handle, as constructed in
`CPEInnovationFramework.__init__`: an opaque record of its constructor
arguments. -/
structure ChatOpenAI where
  model : String
  temperature : Rat
  openai_api_key : Option String

/-- A crewai Agent, as a record of the keyword arguments used in
`setup_agents`. -/
structure Agent where
  role : String
  goal : String
  backstory : String
  verbose : Bool
  allow_delegation : Bool
  llm : ChatOpenAI

/-- A crewai Task, as a record of the keyword arguments used in
`setup_tasks`. -/
structure Task where
  description : String
  expected_output : String
  agent : Agent

/-- The crewai Process mode; the framework only ever uses
`Process.sequential`. -/
inductive ProcessKind
  | sequential

/-- A crewai Crew, as a record of the keyword arguments used in
`setup_crew`. -/
structure Crew where
  agents : List Agent
  tasks : List Task
  process : ProcessKind
  verbose : Nat

/-- Python exceptions raised by this repository: `KeyError` from a missing
dict key (the spec calls this `UnknownAgent`) and `ValueError` (the spec
calls the credential one `MissingCredential`). -/
inductive PyError
  | keyError (key : String)
  | valueError (msg : String)

/-- Python dict assignment `d[k] = v`: replace the value in place if the
key is present (keeping its insertion position), append otherwise. -/
def dictInsert {α : Type} : List (String × α) → String → α → List (String × α)
  | [], k, v => [(k, v)]
  | p :: d, k, v => if p.1 = k then (k, v) :: d else p :: dictInsert d k v

/-- Python dict lookup `d[k]` without the raise: the first binding of the
key, if any. -/
def dictGet? {α : Type} : List (String × α) → String → Option α
  | [], _ => none
  | p :: d, k => if p.1 = k then some p.2 else dictGet? d k

/-- The keys of a dict, in insertion order (`list(d.keys())`). -/
def dictKeys {α : Type} (d : List (String × α)) : List String :=
  d.map Prod.fst

/-- The values of a dict, in insertion order (`list(d.values())`). -/
def dictValues {α : Type} (d : List (String × α)) : List α :=
  d.map Prod.snd

/-- The mutable state of a `CPEInnovationFramework` instance. -/
structure CPEInnovationFramework where
  llm : ChatOpenAI
  crew : Option Crew
  agents : List (String × Agent)
  tasks : List (String × Task)

/-- The constructor `CPEInnovationFramework.__init__`: build the ChatOpenAI handle from
the environment (`os.getenv("OPENAI_API_KEY")`), no crew, empty agent and
task registries.  The process environment is modelled as a function from
variable names to their optional values. -/
def CPEInnovationFramework.init (env : String → Option String) :
    CPEInnovationFramework :=
  { llm := { model := "gpt-4", temperature := 3 / 10,
             openai_api_key := env "OPENAI_API_KEY" }
    crew := none
    agents := []
    tasks := [] }

/-- The Network Optimization Specialist agent from `setup_agents`. -/
def networkOptimizerAgent (llm : ChatOpenAI) : Agent :=
  { role := "Network Optimization Specialist"
    goal := "Deliver optimized network configurations with 99%+ compliance rates, automated troubleshooting workflows, and performance improvements measurable within 24 hours of deployment"
    backstory := "You are a seasoned network engineer with deep expertise across \n            Cisco, Juniper, Arista, and open-source networking stacks. You specialize in \n            CPE middleware integration and cross-platform automation using Netmiko and NAPALM. \n            Your focus is on creating vendor-agnostic solutions that work seamlessly across \n            different hardware platforms."
    verbose := true
    allow_delegation := false
    llm := llm }

/-- The Predictive Maintenance Engineer agent from `setup_agents`. -/
def maintenanceEngineerAgent (llm : ChatOpenAI) : Agent :=
  { role := "Predictive Maintenance Engineer"
    goal := "Achieve 85%+ accuracy in failure prediction with optimized recall rates, generate actionable maintenance schedules, and minimize unplanned downtime through early anomaly detection"
    backstory := "You are an industrial IoT expert with experience in time-series \n            analysis, sensor data processing, and implementing ANAI-powered predictive \n            workflows across diverse hardware ecosystems. You excel at turning raw sensor \n            data into actionable maintenance insights that prevent equipment failures."
    verbose := true
    allow_delegation := false
    llm := llm }

/-- The Service Deployment Orchestrator agent from `setup_agents`. -/
def deploymentOrchestratorAgent (llm : ChatOpenAI) : Agent :=
  { role := "Service Deployment Orchestrator"
    goal := "Execute zero-downtime deployments with comprehensive monitoring, automated rollback capabilities, and detailed performance tracking for both containerized and native CPE applications"
    backstory := "You are a DevOps architect specializing in CPE environments, \n            with expertise in Kubernetes, Docker, and native middleware deployment patterns \n            across prplOS and RDK-B platforms. You ensure reliable, scalable service \n            deployments with minimal disruption to existing operations."
    verbose := true
    allow_delegation := false
    llm := llm }

/-- The Knowledge Curation Manager agent from `setup_agents`. -/
def knowledgeCuratorAgent (llm : ChatOpenAI) : Agent :=
  { role := "Knowledge Curation Manager"
    goal := "Maintain a high-quality, searchable repository of proven solutions with 90%+ community satisfaction ratings, automated quality scoring, and efficient skill module distribution"
    backstory := "You are an open-source community manager with technical validation \n            expertise, experienced in implementing peer-review workflows, automated testing \n            pipelines, and community-driven quality assurance processes. You ensure that \n            shared knowledge meets high standards and remains accessible to the community."
    verbose := true
    allow_delegation := false
    llm := llm }

/-- The Ecosystem Coordination Director agent from `setup_agents`; the only
agent with `allow_delegation := true`. -/
def ecosystemCoordinatorAgent (llm : ChatOpenAI) : Agent :=
  { role := "Ecosystem Coordination Director"
    goal := "Optimize cross-agent collaboration efficiency, maintain system-wide performance metrics above 95% availability, and facilitate sustainable community growth through intelligent task distribution and quality control"
    backstory := "You are a distributed systems architect with extensive experience \n            in multi-agent orchestration, community platform scaling, and enterprise-grade \n            reliability engineering for middleware environments. You oversee the entire \n            ecosystem to ensure smooth operation and continuous improvement."
    verbose := true
    allow_delegation := true
    llm := llm }

/-- The five dict assignments of `setup_agents`, applied in source order to
a starting registry. -/
def agentsBuilt (llm : ChatOpenAI) (a0 : List (String × Agent)) :
    List (String × Agent) :=
  dictInsert (dictInsert (dictInsert (dictInsert (dictInsert a0
    "network_optimizer" (networkOptimizerAgent llm))
    "maintenance_engineer" (maintenanceEngineerAgent llm))
    "deployment_orchestrator" (deploymentOrchestratorAgent llm))
    "knowledge_curator" (knowledgeCuratorAgent llm))
    "ecosystem_coordinator" (ecosystemCoordinatorAgent llm)

/-- Method `CPEInnovationFramework.setup_agents`: assign the five agents into
`self.agents`, keyed by their fixed names, in source order. -/
def setup_agents (st : CPEInnovationFramework) : CPEInnovationFramework :=
  { st with agents := agentsBuilt st.llm st.agents }

/-- The network-infrastructure analysis task from `setup_tasks`. -/
def networkAnalysisTask (a : Agent) : Task :=
  { description := "Analyze current network configurations using Netmiko/NAPALM principles, \n            identify optimization opportunities, generate compliance reports, and create automated \n            troubleshooting workflows. Include performance benchmarking and vendor-agnostic \n            configuration templates.\n            \n            Focus on:\n            - Configuration compliance assessment\n            - Performance optimization recommendations  \n            - Automated troubleshooting script generation\n            - Vendor-agnostic template creation\n            - Security configuration validation"
    expected_output := "A comprehensive network optimization report containing:\n            1. Current configuration analysis with compliance status\n            2. Specific optimization recommendations with implementation steps\n            3. Performance improvement projections with metrics\n            4. Automated troubleshooting scripts ready for deployment\n            5. Vendor-agnostic configuration templates\n            6. Security assessment and recommendations"
    agent := a }

/-- The equipment-health assessment task from `setup_tasks`. -/
def maintenancePredictionTask (a : Agent) : Task :=
  { description := "Process sensor data and time-series information using machine learning \n            principles, generate failure probability assessments, create maintenance schedules, \n            and implement anomaly detection workflows.\n            \n            Analyze:\n            - Historical sensor data patterns\n            - Equipment performance trends\n            - Failure correlation indicators\n            - Maintenance schedule optimization\n            - Anomaly detection thresholds"
    expected_output := "A comprehensive maintenance report including:\n            1. Equipment health scores with failure probability assessments\n            2. Prioritized maintenance schedules with risk-based timing\n            3. Anomaly detection alerts with severity levels\n            4. Preventive maintenance recommendations\n            5. Cost-benefit analysis of maintenance actions\n            6. Integration guidelines for ANAI workflows"
    agent := a }

/-- The service-deployment lifecycle task from `setup_tasks`. -/
def serviceDeploymentTask (a : Agent) : Task :=
  { description := "Execute automated service deployments with comprehensive monitoring, \n            implement rollback procedures, track performance metrics, and maintain compatibility \n            across containerized and native environments.\n            \n            Manage:\n            - Deployment pipeline automation\n            - Performance monitoring setup\n            - Rollback procedure implementation  \n            - Compatibility validation\n            - Resource optimization"
    expected_output := "A detailed deployment report containing:\n            1. Deployment status with success metrics\n            2. Performance monitoring dashboard configurations\n            3. Automated rollback procedures and triggers\n            4. Compatibility validation results across platforms\n            5. Resource utilization optimization recommendations\n            6. Integration points for existing CPE middleware"
    agent := a }

/-- The community-contribution curation task from `setup_tasks`. -/
def knowledgeCurationTask (a : Agent) : Task :=
  { description := "Review community-submitted solutions through automated testing and \n            peer review, organize knowledge base, maintain version control, and implement \n            quality scoring mechanisms for shared skill modules.\n            \n            Process:\n            - Community contribution validation\n            - Automated quality scoring\n            - Peer review coordination\n            - Knowledge base organization\n            - Version control management"
    expected_output := "A curated knowledge repository report including:\n            1. Validated community contributions with quality scores\n            2. Organized skill modules with version tracking\n            3. Peer review summaries and feedback integration\n            4. Quality metrics and community satisfaction ratings\n            5. Knowledge base search and discovery improvements\n            6. Community engagement and growth analytics"
    agent := a }

/-- The cross-agent coordination task from `setup_tasks`. -/
def ecosystemCoordinationTask (a : Agent) : Task :=
  { description := "Orchestrate agent interactions, monitor system health, distribute \n            tasks based on priority and agent availability, implement quality control across \n            all outputs, and maintain community ecosystem metrics.\n            \n            Coordinate:\n            - Multi-agent workflow optimization\n            - System performance monitoring\n            - Quality control implementation\n            - Community ecosystem health\n            - Strategic planning and improvement"
    expected_output := "A comprehensive ecosystem management report including:\n            1. System health dashboard with performance metrics\n            2. Agent collaboration efficiency analysis\n            3. Task distribution optimization recommendations\n            4. Quality control audit results across all components\n            5. Community growth metrics and engagement analysis\n            6. Strategic recommendations for ecosystem improvement\n            7. Integration roadmap for prpl Foundation tools"
    agent := a }

/-- Method `CPEInnovationFramework.setup_tasks`: the five dict assignments
`self.tasks[taskKey] = Task(..., agent=self.agents[agentKey])`, in source
order.  Each right-hand side looks up its agent first; a missing agent
raises `KeyError` (the spec's `UnknownAgent`) there, aborting the rest. -/
def setup_tasks (st : CPEInnovationFramework) :
    Except PyError CPEInnovationFramework :=
  match dictGet? st.agents "network_optimizer" with
  | none => .error (.keyError "network_optimizer")
  | some a1 =>
  let st := { st with
    tasks := dictInsert st.tasks "network_analysis" (networkAnalysisTask a1) }
  match dictGet? st.agents "maintenance_engineer" with
  | none => .error (.keyError "maintenance_engineer")
  | some a2 =>
  let st := { st with
    tasks := dictInsert st.tasks "maintenance_prediction"
      (maintenancePredictionTask a2) }
  match dictGet? st.agents "deployment_orchestrator" with
  | none => .error (.keyError "deployment_orchestrator")
  | some a3 =>
  let st := { st with
    tasks := dictInsert st.tasks "service_deployment"
      (serviceDeploymentTask a3) }
  match dictGet? st.agents "knowledge_curator" with
  | none => .error (.keyError "knowledge_curator")
  | some a4 =>
  let st := { st with
    tasks := dictInsert st.tasks "knowledge_curation"
      (knowledgeCurationTask a4) }
  match dictGet? st.agents "ecosystem_coordinator" with
  | none => .error (.keyError "ecosystem_coordinator")
  | some a5 =>
  .ok { st with
    tasks := dictInsert st.tasks "ecosystem_coordination"
      (ecosystemCoordinationTask a5) }

/-- The five task-registry insertions of `setup_tasks` applied to a
starting task registry, with all agent lookups already resolved to the
agents `setup_agents` installs. -/
def tasksBuilt (llm : ChatOpenAI) (t0 : List (String × Task)) :
    List (String × Task) :=
  dictInsert (dictInsert (dictInsert (dictInsert (dictInsert t0
    "network_analysis" (networkAnalysisTask (networkOptimizerAgent llm)))
    "maintenance_prediction"
      (maintenancePredictionTask (maintenanceEngineerAgent llm)))
    "service_deployment"
      (serviceDeploymentTask (deploymentOrchestratorAgent llm)))
    "knowledge_curation"
      (knowledgeCurationTask (knowledgeCuratorAgent llm)))
    "ecosystem_coordination"
      (ecosystemCoordinationTask (ecosystemCoordinatorAgent llm))

/-- Method `CPEInnovationFramework.setup_crew`: run `setup_agents`, then
`setup_tasks` (whose `KeyError`, if any, propagates), then build the Crew
from the registry values in insertion order, sequential process,
`verbose=2`. -/
def setup_crew (st : CPEInnovationFramework) :
    Except PyError CPEInnovationFramework :=
  match setup_tasks (setup_agents st) with
  | .error e => .error e
  | .ok st =>
    let c : Crew :=
      { agents := dictValues st.agents
        tasks := dictValues st.tasks
        process := .sequential
        verbose := 2 }
    .ok { st with crew := some c }

/-- An input payload (`Dict[str, Any]`, string-valued here, as in the
synthesized default). -/
def Payload : Type := List (String × String)

/-- The default input payload `run_analysis` synthesizes when called with
`input_data=None`; `now` stands for `datetime.now().isoformat()`. -/
def default_input_data (now : String) : Payload :=
  [("network_config", "Current network configuration data"),
   ("sensor_data", "Equipment sensor readings and historical data"),
   ("service_specs", "Service deployment specifications"),
   ("community_contributions", "Recent community submissions"),
   ("timestamp", now)]

/-- The payload `run_analysis` actually hands to the execution facility:
the caller-supplied one when present (`input_data is None` is false for
any dict, including the empty one), the synthesized default otherwise. -/
def effectiveInput (input_data : Option Payload) (now : String) : Payload :=
  match input_data with
  | none => default_input_data now
  | some d => d

/-- Method `CPEInnovationFramework.run_analysis`: compose the crew if not yet
composed (a falsy `self.crew`, i.e. `None`), substitute the default
payload when `input_data` is `None`, then call the external facility
(`self.crew.kickoff`, modelled by the `kickoff` parameter) inside
`try/except`: any raise is caught and turned into the `None` result.
Returns the post-call instance state together with the result. -/
def run_analysis {R : Type} (kickoff : Payload → Except String R)
    (now : String) (st : CPEInnovationFramework)
    (input_data : Option Payload) :
    Except PyError (CPEInnovationFramework × Option R) :=
  match (if st.crew.isNone then setup_crew st else .ok st) with
  | .error e => .error e
  | .ok st =>
    match kickoff (effectiveInput input_data now) with
    | .ok result => .ok (st, some result)
    | .error _ => .ok (st, none)

/-- The dict returned by `get_system_status`. -/
structure StatusSnapshot where
  framework_status : String
  agents_count : Nat
  tasks_count : Nat
  last_analysis : String
  crew_initialized : Bool

/-- Method `CPEInnovationFramework.get_system_status`: recomputed on every call;
`now` stands for `datetime.now().isoformat()` evaluated at the status
request. -/
def get_system_status (st : CPEInnovationFramework) (now : String) :
    StatusSnapshot :=
  { framework_status := "Active"
    agents_count := st.agents.length
    tasks_count := st.tasks.length
    last_analysis := now
    crew_initialized := st.crew.isSome }

/-- Tool stub `analyze_network_performance` from main.py. -/
def analyze_network_performance (config_data : String) : String :=
  "Network performance analysis completed for: " ++ config_data

/-- Tool stub `process_sensor_data` from main.py. -/
def process_sensor_data (sensor_readings : String) : String :=
  "Sensor data processed: " ++ sensor_readings

/-- Tool stub `validate_deployment` from main.py. -/
def validate_deployment (service_spec : String) : String :=
  "Deployment validation completed for: " ++ service_spec

/-- Python truthiness of `os.getenv` results: `None` and the empty string
are falsy, any other string truthy. -/
def pyTruthy : Option String → Bool
  | none => false
  | some s => !(s == "")

/-- Python `os.getenv(name, d)`: the environment value when set, the default
otherwise. -/
def getenvD (env : String → Option String) (name d : String) : String :=
  (env name).getD d

/-- The value of a decimal digit character, `None` for a non-digit. -/
def digitVal? (c : Char) : Option Nat :=
  if c = '0' then some 0 else if c = '1' then some 1
  else if c = '2' then some 2 else if c = '3' then some 3
  else if c = '4' then some 4 else if c = '5' then some 5
  else if c = '6' then some 6 else if c = '7' then some 7
  else if c = '8' then some 8 else if c = '9' then some 9
  else none

/-- Read a run of decimal digits, accumulating left to right; `None` on
the first non-digit. -/
def natFromDigits? : List Char → Nat → Option Nat
  | [], acc => some acc
  | c :: cs, acc =>
    match digitVal? c with
    | none => none
    | some d => natFromDigits? cs (acc * 10 + d)

/-- Python `int(s)` on the optionally-signed decimal literals this
repository uses, `None` standing for the raised `ValueError`. -/
def pyInt? (s : String) : Option Int :=
  match s.data with
  | [] => none
  | c :: rest =>
    if c = '-' then
      match rest with
      | [] => none
      | _ => (natFromDigits? rest 0).map (fun n => -(n : Int))
    else (natFromDigits? (c :: rest) 0).map (fun n => (n : Int))

/-- Split a character list at the first dot: whole part, and the
fractional part when a dot is present. -/
def splitAtDot : List Char → List Char × Option (List Char)
  | [] => ([], none)
  | c :: rest =>
    if c = '.' then ([], some rest)
    else
      let p := splitAtDot rest
      (c :: p.1, p.2)

/-- Python `float(s)` on the nonnegative decimal literals this repository
uses (digits with at most one dot), `None` standing for the raised
`ValueError`.  The value is represented exactly as a rational. -/
def pyFloat? (s : String) : Option Rat :=
  match splitAtDot s.data with
  | (w, none) =>
    if w.isEmpty then none
    else (natFromDigits? w 0).map (fun n => (n : Rat))
  | (w, some f) =>
    if w.isEmpty && f.isEmpty then none
    else
      match natFromDigits? w 0, natFromDigits? f 0 with
      | some wn, some fn =>
        some ((wn : Rat) + (fn : Rat) / ((10 : Rat) ^ f.length))
      | _, _ => none

/-- ASCII lowercasing of one character (Python `str.lower` on the ASCII
configuration strings this repository uses). -/
def asciiLowerChar (c : Char) : Char :=
  if 'A' ≤ c ∧ c ≤ 'Z' then Char.ofNat (c.toNat + 32) else c

/-- Python `s.lower()` on ASCII strings. -/
def pyLower (s : String) : String :=
  String.mk (s.data.map asciiLowerChar)

/-- The class attributes of `config/settings.py`'s `Settings`, as read
from the environment at import time. -/
structure Settings where
  OPENAI_API_KEY : Option String
  OPENAI_MODEL : String
  DEBUG : Bool
  LOG_LEVEL : String
  NETWORK_TIMEOUT : Int
  MAX_DEVICES : Int
  PREDICTION_THRESHOLD : Rat
  DEPLOYMENT_TIMEOUT : Int

/-- Evaluation of the `Settings` class body against a process
environment: each attribute is an `os.getenv` with the documented default,
the numeric ones passed through `int()` / `float()` (whose `ValueError` on
a malformed override propagates). -/
def Settings.load (env : String → Option String) : Except PyError Settings :=
  match pyInt? (getenvD env "NETWORK_TIMEOUT" "30") with
  | none => .error (.valueError "invalid literal for int()")
  | some nt =>
  match pyInt? (getenvD env "MAX_CONCURRENT_DEVICES" "10") with
  | none => .error (.valueError "invalid literal for int()")
  | some md =>
  match pyFloat? (getenvD env "MAINTENANCE_PREDICTION_THRESHOLD" "0.7") with
  | none => .error (.valueError "could not convert string to float")
  | some pt =>
  match pyInt? (getenvD env "DEPLOYMENT_TIMEOUT" "300") with
  | none => .error (.valueError "invalid literal for int()")
  | some dt =>
  .ok { OPENAI_API_KEY := env "OPENAI_API_KEY"
        OPENAI_MODEL := getenvD env "OPENAI_MODEL" "gpt-4"
        DEBUG := pyLower (getenvD env "DEBUG" "true") == "true"
        LOG_LEVEL := getenvD env "LOG_LEVEL" "INFO"
        NETWORK_TIMEOUT := nt
        MAX_DEVICES := md
        PREDICTION_THRESHOLD := pt
        DEPLOYMENT_TIMEOUT := dt }

/-- Method `Settings.validate`: raise `ValueError("OPENAI_API_KEY is required")`
(the spec's `MissingCredential`) when the key is falsy — absent or the
empty string — and return `True` otherwise. -/
def Settings.validate (s : Settings) : Except PyError Bool :=
  if pyTruthy s.OPENAI_API_KEY then .ok true
  else .error (.valueError "OPENAI_API_KEY is required")

/-- A concrete test environment: the required credential set to
"sk-test123" and nothing else set. -/
def testEnv : String → Option String :=
  fun name => if name = "OPENAI_API_KEY" then some "sk-test123" else none

/-- An environment that binds only `OPENAI_API_KEY`, to the given
optional value. -/
def envOnlyKey (key : Option String) : String → Option String :=
  fun name => if name = "OPENAI_API_KEY" then key else none

/-- The state `setup_crew` leaves behind: both registries rebuilt from the
fixed definitions on top of their previous contents, and the crew composed
from the registry values. -/
def composed (st : CPEInnovationFramework) : CPEInnovationFramework :=
  { llm := st.llm
    crew := some
      { agents := dictValues (agentsBuilt st.llm st.agents)
        tasks := dictValues (tasksBuilt st.llm st.tasks)
        process := .sequential
        verbose := 2 }
    agents := agentsBuilt st.llm st.agents
    tasks := tasksBuilt st.llm st.tasks }

theorem dictGet?_dictInsert_self {α : Type} (d : List (String × α))
    (k : String) (v : α) : dictGet? (dictInsert d k v) k = some v := by
  induction d with
  | nil => simp [dictInsert, dictGet?]
  | cons p d ih =>
    by_cases h : p.1 = k
    · simp [dictInsert, dictGet?, h]
    · simp [dictInsert, dictGet?, h, ih]

theorem dictGet?_dictInsert_ne {α : Type} (d : List (String × α))
    (k : String) (v : α) (q : String) (h : q ≠ k) :
    dictGet? (dictInsert d k v) q = dictGet? d q := by
  induction d with
  | nil => simp [dictInsert, dictGet?, Ne.symm h]
  | cons p d ih =>
    by_cases hp : p.1 = k
    · subst hp
      simp [dictInsert, dictGet?, Ne.symm h]
    · simp [dictInsert, dictGet?, hp, ih]

theorem agentsBuilt_network_optimizer (llm : ChatOpenAI)
    (a0 : List (String × Agent)) :
    dictGet? (agentsBuilt llm a0) "network_optimizer" =
      some (networkOptimizerAgent llm) := by
  unfold agentsBuilt
  rw [dictGet?_dictInsert_ne, dictGet?_dictInsert_ne, dictGet?_dictInsert_ne,
    dictGet?_dictInsert_ne, dictGet?_dictInsert_self] <;> decide

theorem agentsBuilt_maintenance_engineer (llm : ChatOpenAI)
    (a0 : List (String × Agent)) :
    dictGet? (agentsBuilt llm a0) "maintenance_engineer" =
      some (maintenanceEngineerAgent llm) := by
  unfold agentsBuilt
  rw [dictGet?_dictInsert_ne, dictGet?_dictInsert_ne, dictGet?_dictInsert_ne,
    dictGet?_dictInsert_self] <;> decide

theorem agentsBuilt_deployment_orchestrator (llm : ChatOpenAI)
    (a0 : List (String × Agent)) :
    dictGet? (agentsBuilt llm a0) "deployment_orchestrator" =
      some (deploymentOrchestratorAgent llm) := by
  unfold agentsBuilt
  rw [dictGet?_dictInsert_ne, dictGet?_dictInsert_ne,
    dictGet?_dictInsert_self] <;> decide

theorem agentsBuilt_knowledge_curator (llm : ChatOpenAI)
    (a0 : List (String × Agent)) :
    dictGet? (agentsBuilt llm a0) "knowledge_curator" =
      some (knowledgeCuratorAgent llm) := by
  unfold agentsBuilt
  rw [dictGet?_dictInsert_ne, dictGet?_dictInsert_self]
  decide

theorem agentsBuilt_ecosystem_coordinator (llm : ChatOpenAI)
    (a0 : List (String × Agent)) :
    dictGet? (agentsBuilt llm a0) "ecosystem_coordinator" =
      some (ecosystemCoordinatorAgent llm) := by
  unfold agentsBuilt
  rw [dictGet?_dictInsert_self]

/-- After `setup_agents`, every agent lookup in `setup_tasks` succeeds and
the task registry receives exactly the five fixed insertions. -/
theorem setup_tasks_setup_agents (st : CPEInnovationFramework) :
    setup_tasks (setup_agents st) =
      .ok { setup_agents st with tasks := tasksBuilt st.llm st.tasks } := by
  simp only [setup_tasks, setup_agents, tasksBuilt,
    agentsBuilt_network_optimizer, agentsBuilt_maintenance_engineer,
    agentsBuilt_deployment_orchestrator, agentsBuilt_knowledge_curator,
    agentsBuilt_ecosystem_coordinator]

/-- Composition never raises: `setup_crew` always returns the composed state. -/
theorem setup_crew_eq (st : CPEInnovationFramework) :
    setup_crew st = .ok (composed st) := by
  unfold setup_crew
  rw [setup_tasks_setup_agents]
  simp only [setup_agents, composed]

/-- Claim C1, counterexample: after `setup_crew`, the key sets of the two
registries are NOT equal — "network_analysis" is a task key but not an
agent key — so the task keys are not "exactly the set of agent names" and
no task references an agent of the same name as its own key. -/
theorem claim1_counterexample :
    ∃ st, setup_crew (CPEInnovationFramework.init testEnv) = .ok st ∧
      dictKeys st.tasks ≠ dictKeys st.agents ∧
      (dictKeys st.tasks).toFinset ≠ (dictKeys st.agents).toFinset ∧
      "network_analysis" ∈ dictKeys st.tasks ∧
      "network_analysis" ∉ dictKeys st.agents :=
  ⟨composed (CPEInnovationFramework.init testEnv), setup_crew_eq _,
    by decide, by decide, by decide, by decide⟩

/-- Claim C1 (amended): in every state reachable after `setup_crew`, the
task registry holds exactly five keys and the agent registry exactly five
keys, paired 1:1 *positionally* (task key i goes with agent key i), and
each task references the agent stored under its paired — differently
spelled — agent key; the key sets themselves are disjoint, not equal. -/
theorem claim1_positional_pairing (env : String → Option String) :
    ∃ st, setup_crew (CPEInnovationFramework.init env) = .ok st ∧
      dictKeys st.tasks = ["network_analysis", "maintenance_prediction",
        "service_deployment", "knowledge_curation",
        "ecosystem_coordination"] ∧
      dictKeys st.agents = ["network_optimizer", "maintenance_engineer",
        "deployment_orchestrator", "knowledge_curator",
        "ecosystem_coordinator"] ∧
      (dictGet? st.tasks "network_analysis").map Task.agent =
        dictGet? st.agents "network_optimizer" ∧
      (dictGet? st.tasks "maintenance_prediction").map Task.agent =
        dictGet? st.agents "maintenance_engineer" ∧
      (dictGet? st.tasks "service_deployment").map Task.agent =
        dictGet? st.agents "deployment_orchestrator" ∧
      (dictGet? st.tasks "knowledge_curation").map Task.agent =
        dictGet? st.agents "knowledge_curator" ∧
      (dictGet? st.tasks "ecosystem_coordination").map Task.agent =
        dictGet? st.agents "ecosystem_coordinator" :=
  ⟨composed (CPEInnovationFramework.init env), setup_crew_eq _,
    rfl, rfl, rfl, rfl, rfl, rfl, rfl⟩

/-- Claim C4: calling `setup_tasks` before `setup_agents` on a freshly
constructed framework raises `KeyError` (the spec's `UnknownAgent`) — the
very first task definition aborts the call — and indeed every one of the
five agent lookups would fail, the agent registry being empty. -/
theorem claim4_tasks_before_agents (env : String → Option String) :
    setup_tasks (CPEInnovationFramework.init env) =
      .error (.keyError "network_optimizer") ∧
    (["network_optimizer", "maintenance_engineer", "deployment_orchestrator",
      "knowledge_curator", "ecosystem_coordinator"].all
        (fun k =>
          (dictGet? (CPEInnovationFramework.init env).agents k).isNone))
      = true :=
  ⟨rfl, rfl⟩

/-- Claim C5: for every environment, `setup_crew` on a fresh framework
succeeds, and an immediate `get_system_status` reports exactly 5 agents,
exactly 5 tasks, and `crew_initialized = true`. -/
theorem claim5_compose_then_status (env : String → Option String)
    (now : String) :
    ∃ st, setup_crew (CPEInnovationFramework.init env) = .ok st ∧
      (get_system_status st now).agents_count = 5 ∧
      (get_system_status st now).tasks_count = 5 ∧
      (get_system_status st now).crew_initialized = true :=
  ⟨composed (CPEInnovationFramework.init env), setup_crew_eq _,
    rfl, rfl, rfl⟩

/-- Claim C6: `setup_crew` is idempotent — called twice in a row from a
fresh framework, the second call succeeds and replaces both registries
(and the crew) with identical ones; each registry keeps the same five
keys, with no duplicates. -/
theorem claim6_setup_crew_idempotent (env : String → Option String) :
    ∃ st1 st2,
      setup_crew (CPEInnovationFramework.init env) = .ok st1 ∧
      setup_crew st1 = .ok st2 ∧
      st2.agents = st1.agents ∧ st2.tasks = st1.tasks ∧ st2.crew = st1.crew ∧
      dictKeys st1.agents = ["network_optimizer", "maintenance_engineer",
        "deployment_orchestrator", "knowledge_curator",
        "ecosystem_coordinator"] ∧
      dictKeys st1.tasks = ["network_analysis", "maintenance_prediction",
        "service_deployment", "knowledge_curation",
        "ecosystem_coordination"] ∧
      (dictKeys st1.agents).Nodup ∧ (dictKeys st1.tasks).Nodup :=
  ⟨composed (CPEInnovationFramework.init env),
   composed (composed (CPEInnovationFramework.init env)),
   setup_crew_eq _, setup_crew_eq _,
   rfl, rfl, rfl, rfl, rfl,
   (by decide : (["network_optimizer", "maintenance_engineer",
     "deployment_orchestrator", "knowledge_curator",
     "ecosystem_coordinator"] : List String).Nodup),
   (by decide : (["network_analysis", "maintenance_prediction",
     "service_deployment", "knowledge_curation",
     "ecosystem_coordination"] : List String).Nodup)⟩

/-- Claim C2: for every input payload (and every starting state), if the
external sequential-execution facility raises on every input, then
`run_analysis` catches the exception at the orchestrator boundary and
returns the `None` sentinel instead of propagating it. -/
theorem claim2_exec_failure_yields_none {R : Type}
    (kickoff : Payload → Except String R) (now : String)
    (st : CPEInnovationFramework) (input_data : Option Payload)
    (hfail : ∀ p, ∃ e, kickoff p = .error e) :
    ∃ st2, run_analysis kickoff now st input_data =
      .ok (st2, (none : Option R)) := by
  obtain ⟨e, he⟩ := hfail (effectiveInput input_data now)
  cases hc : st.crew with
  | none =>
    exact ⟨composed st, by simp [run_analysis, hc, setup_crew_eq, he]⟩
  | some c =>
    exact ⟨st, by simp [run_analysis, hc, he]⟩

/-- Witness for claim C2 at a concrete always-raising stub. -/
theorem claim2_witness :
    ∃ st2, run_analysis (fun _ => Except.error "kickoff failed")
        "2024-01-01T00:00:00" (CPEInnovationFramework.init testEnv)
        (some []) = .ok (st2, (none : Option String)) :=
  claim2_exec_failure_yields_none _ _ _ _ (fun _ => ⟨"kickoff failed", rfl⟩)

/-- Claim C3: if the execution facility returns the fixed value V for any
input, `run_analysis` with the empty dict returns exactly V and passes the
empty dict through unreplaced (any supplied payload is passed through),
while `run_analysis` with `None` also returns V after substituting the
synthesized default payload, which contains a "timestamp" field. -/
theorem claim3_fixed_result_passthrough {R : Type} (V : R)
    (kickoff : Payload → Except String R)
    (hV : ∀ p, kickoff p = .ok V)
    (now : String) (st : CPEInnovationFramework) :
    (∃ st1, run_analysis kickoff now st (some []) = .ok (st1, some V)) ∧
    (∃ st1, run_analysis kickoff now st none = .ok (st1, some V)) ∧
    (∀ d : Payload, effectiveInput (some d) now = d) ∧
    effectiveInput none now = default_input_data now ∧
    dictGet? (default_input_data now) "timestamp" = some now := by
  refine ⟨?_, ?_, fun d => rfl, rfl, rfl⟩ <;>
  · cases hc : st.crew with
    | none =>
      exact ⟨composed st, by simp [run_analysis, hc, setup_crew_eq, hV]⟩
    | some c =>
      exact ⟨st, by simp [run_analysis, hc, hV]⟩

/-- Witness for claim C3 at a concrete constant stub. -/
theorem claim3_witness :
    (∃ st1, run_analysis (fun _ => Except.ok "V") "2024-01-01T00:00:00"
        (CPEInnovationFramework.init testEnv) (some [])
        = .ok (st1, some "V")) ∧
    (∃ st1, run_analysis (fun _ => Except.ok "V") "2024-01-01T00:00:00"
        (CPEInnovationFramework.init testEnv) none
        = .ok (st1, some "V")) ∧
    (∀ d : Payload,
      effectiveInput (some d) "2024-01-01T00:00:00" = d) ∧
    effectiveInput none "2024-01-01T00:00:00"
      = default_input_data "2024-01-01T00:00:00" ∧
    dictGet? (default_input_data "2024-01-01T00:00:00") "timestamp"
      = some "2024-01-01T00:00:00" :=
  claim3_fixed_result_passthrough "V" _ (fun _ => rfl) "2024-01-01T00:00:00" _

/-- Claim C7: evaluating the Settings class body against an environment
that binds only the API key succeeds, and `validate` raises the
credential error (`ValueError("OPENAI_API_KEY is required")`, the spec's
`MissingCredential`) exactly when the key is absent or the empty string,
returning `True` otherwise. -/
theorem claim7_validate_requires_key (key : Option String) :
    ∃ s, Settings.load (envOnlyKey key) = .ok s ∧
      s.OPENAI_API_KEY = key ∧
      Settings.validate s =
        (if key = none ∨ key = some "" then
          .error (.valueError "OPENAI_API_KEY is required")
        else .ok true) := by
  refine ⟨_, rfl, rfl, ?_⟩
  match key with
  | none => rfl
  | some s =>
    by_cases h : s = ""
    · subst h; rfl
    · simp [Settings.validate, pyTruthy, envOnlyKey, h]

/-- Claim C8, counterexample: the most recent run happens with the clock
at 2024-01-01, yet a status request with the clock at 2024-01-02 reports
`last_analysis = 2024-01-02` — the query time, not the run time — so the
snapshot timestamp does not equal the time of the most recent run. -/
theorem claim8_counterexample :
    ∃ st res,
      run_analysis (fun _ => Except.ok "report") "2024-01-01T00:00:00"
        (CPEInnovationFramework.init testEnv) (some []) = .ok (st, res) ∧
      (get_system_status st "2024-01-02T00:00:00").last_analysis
        = "2024-01-02T00:00:00" ∧
      ("2024-01-02T00:00:00" : String) ≠ "2024-01-01T00:00:00" := by
  refine ⟨composed (CPEInnovationFramework.init testEnv), some "report",
    ?_, rfl, by decide⟩
  simp [run_analysis, CPEInnovationFramework.init, setup_crew_eq]

/-- Claim C8 (amended): the `last_analysis` field of the status snapshot
is the current time at the moment of the status request — recomputed on
every call and not persisted — for every state, regardless of when (or
whether) any run happened. -/
theorem claim8_last_analysis_is_query_time (st : CPEInnovationFramework)
    (now : String) :
    (get_system_status st now).last_analysis = now := rfl

/-- Claim C9: once `setup_agents` has run (from any starting state with an
empty task registry), every one of the five agent lookups performed by
`setup_tasks` succeeds, so the `KeyError` branch is never taken and
`setup_tasks` returns successfully with exactly the five tasks. -/
theorem claim9_lookups_succeed_after_setup_agents
    (st : CPEInnovationFramework) (htasks : st.tasks = []) :
    (["network_optimizer", "maintenance_engineer", "deployment_orchestrator",
      "knowledge_curator", "ecosystem_coordinator"].all
        (fun k => (dictGet? (setup_agents st).agents k).isSome)) = true ∧
    ∃ st2, setup_tasks (setup_agents st) = .ok st2 ∧
      dictKeys st2.tasks = ["network_analysis", "maintenance_prediction",
        "service_deployment", "knowledge_curation",
        "ecosystem_coordination"] ∧
      st2.tasks.length = 5 := by
  constructor
  · simp [setup_agents, agentsBuilt_network_optimizer,
      agentsBuilt_maintenance_engineer, agentsBuilt_deployment_orchestrator,
      agentsBuilt_knowledge_curator, agentsBuilt_ecosystem_coordinator]
  · have h2 := setup_tasks_setup_agents st
    rw [htasks] at h2
    exact ⟨_, h2, rfl, rfl⟩

/-- Witness for claim C9 on a freshly constructed framework. -/
theorem claim9_witness :
    (["network_optimizer", "maintenance_engineer", "deployment_orchestrator",
      "knowledge_curator", "ecosystem_coordinator"].all
        (fun k =>
          (dictGet? (setup_agents (CPEInnovationFramework.init testEnv)).agents
            k).isSome)) = true ∧
    ∃ st2, setup_tasks (setup_agents (CPEInnovationFramework.init testEnv))
        = .ok st2 ∧
      dictKeys st2.tasks = ["network_analysis", "maintenance_prediction",
        "service_deployment", "knowledge_curation",
        "ecosystem_coordination"] ∧
      st2.tasks.length = 5 :=
  claim9_lookups_succeed_after_setup_agents
    (CPEInnovationFramework.init testEnv) rfl

/-- Claim C10: on a composed framework, a run whose external execution
raises leaves the instance state — agent registry, task registry and crew
reference — exactly as it was, and a subsequent `get_system_status` still
reports 5 agents, 5 tasks and `crew_initialized = true`. -/
theorem claim10_failed_run_preserves_state {R : Type}
    (kickoff : Payload → Except String R) (now : String)
    (env : String → Option String) (st : CPEInnovationFramework)
    (input_data : Option Payload)
    (hst : st = composed (CPEInnovationFramework.init env))
    (hfail : ∀ p, ∃ e, kickoff p = .error e) :
    run_analysis kickoff now st input_data = .ok (st, (none : Option R)) ∧
    (get_system_status st now).agents_count = 5 ∧
    (get_system_status st now).tasks_count = 5 ∧
    (get_system_status st now).crew_initialized = true := by
  obtain ⟨e, he⟩ := hfail (effectiveInput input_data now)
  subst hst
  refine ⟨?_, rfl, rfl, rfl⟩
  simp [run_analysis, composed, he]

/-- Witness for claim C10 at a concrete always-raising stub. -/
theorem claim10_witness :
    run_analysis (fun _ => Except.error "boom") "2024-01-01T00:00:00"
        (composed (CPEInnovationFramework.init testEnv)) (some [])
      = .ok (composed (CPEInnovationFramework.init testEnv),
             (none : Option String)) ∧
    (get_system_status (composed (CPEInnovationFramework.init testEnv))
      "2024-01-01T00:00:00").agents_count = 5 ∧
    (get_system_status (composed (CPEInnovationFramework.init testEnv))
      "2024-01-01T00:00:00").tasks_count = 5 ∧
    (get_system_status (composed (CPEInnovationFramework.init testEnv))
      "2024-01-01T00:00:00").crew_initialized = true :=
  claim10_failed_run_preserves_state _ _ testEnv _ _ rfl
    (fun _ => ⟨"boom", rfl⟩)

end CPE
